import Mathlib

/-!
Shallow embedding of the experiment orchestration engine of the spiro
repository (src/spiro/experimenter.py), together with theorems checking the
frozen claims about it.

Conventions of the embedding:
  * Machine state mutated by the Python code (the `Experimenter` attributes,
    the camera attributes it sets, the LED line) is modelled as explicit
    records, and each Python method becomes a state-transformer function.
  * Wall-clock reads (`time.time()`), the formatted timestamp and the default
    experiment name (which calls `date.today()`) are passed in as explicit
    arguments, since they are ambient inputs of the code.
  * The result of a sensor read (the mean brightness of a sampled frame) is
    likewise an explicit argument where a model needs it.
  * Durations and times are rationals (seconds), matching Python float
    arithmetic on the values the code actually computes (sums, products and
    floor divisions of the configured quantities).
  * Hardware/camera commands that matter for ordering claims are also
    recorded in an `Action` trace, in program order.
-/

namespace Spiro

/-- Python exception kinds that the modelled code can raise. -/
inductive PyErr
  | typeError
  | captureError
  | attributeError
  deriving DecidableEq, Repr

/-- The `self.daytime` attribute: initialised to the string `"TBD"` and later
overwritten with the boolean result of `isDaytime()`; Python compares these
with `!=`, under which `"TBD"` differs from both booleans. -/
inductive PyDaytime
  | tbd
  | b (v : Bool)
  deriving DecidableEq, Repr

/-- Python truthiness of the `self.daytime` value: the non-empty string
`"TBD"` is truthy, a boolean is itself. -/
def PyDaytime.truthy : PyDaytime → Bool
  | .tbd => true
  | .b v => v

/-- The camera attributes read or written by experimenter.py. -/
structure CamState where
  resolution : ℕ × ℕ
  shutter_speed : ℕ
  iso : ℕ
  color_effects : Option ℕ
  exposure_mode : String
  awb_mode : String
  awb_gains : ℕ × ℕ
  meter_mode : String
  mode : String
  deriving DecidableEq, Repr

/-- The hardware lines driven through `self.hw`. -/
structure HwState where
  led : Bool
  motor : Bool
  deriving DecidableEq, Repr

/-- The configuration values experimenter.py reads through `self.cfg.get`. -/
structure Config where
  name : String
  dayshutter : ℕ
  nightshutter : ℕ
  dayiso : ℕ
  nightiso : ℕ
  calibration : ℕ
  deriving DecidableEq, Repr

/-- Hardware and camera commands issued by the code, recorded in program
order.  Sleep durations are in milliseconds. -/
inductive Action
  | sleep (ms : ℕ)
  | setShutter (us : ℕ)
  | setIso (v : ℕ)
  | clearColorEffects
  | ledControl (state : Bool)
  | setExposureMode (m : String)
  | setAwbMode (m : String)
  | readAwbGains
  | setAwbGains
  | setWBCall
  | captureBuffer
  | decodeImage
  | cropImage
  | makeDirs
  | saveFile
  | thumbnailUpdate
  deriving DecidableEq, Repr

/-- The mutable attributes of the `Experimenter` object.  `status_change`
models the `threading.Event` as its set/unset bit; `nshots` is an integer
because the code decrements it below zero on drift. -/
structure ExpState where
  delay : ℚ
  duration : ℕ
  dir : String
  starttime : ℚ
  endtime : ℚ
  running : Bool
  status : String
  daytime : PyDaytime
  quit : Bool
  stop_experiment : Bool
  status_change : Bool
  next_status : String
  last_captured : List String
  nshots : ℤ
  idlepos : ℕ
  cam : CamState
  hw : HwState
  deriving DecidableEq, Repr

/-- Model of `Experimenter._initialize_defaults`: the state created at process start
(`home` stands for `os.path.expanduser` of the home directory). -/
def initialState (home : String) (cam : CamState) (hw : HwState) : ExpState where
  delay := 60
  duration := 7
  dir := home
  starttime := 0
  endtime := 0
  running := false
  status := "Stopped"
  daytime := .tbd
  quit := false
  stop_experiment := false
  status_change := false
  next_status := ""
  last_captured := ["", "", "", ""]
  nshots := 0
  idlepos := 0
  cam := cam
  hw := hw

/-- Model of `Experimenter.stop`: sets the status, clears the queued command and
raises the stop flag. -/
def stop (s : ExpState) : ExpState :=
  { s with status := "Stopping", next_status := "", stop_experiment := true }

/-- Model of `Experimenter.go`: the public start signal; queues the `run` command and
sets the event bit, touching nothing else. -/
def go (s : ExpState) : ExpState :=
  { s with next_status := "run", status_change := true }

/-- Whether a generator object satisfies the context-manager protocol that
the Python `with` statement checks on entry.  `Experimenter.temporary_resolution`
is a plain generator function (its body contains `yield` but the function
carries no `contextlib.contextmanager` decorator), and generator objects do
not implement the `enter`/`exit` protocol, so this is `false`. -/
def generatorSupportsWith : Bool := false

/-- Model of `Experimenter.isDaytime` as it would behave if `temporary_resolution`
were driven as the context manager it was evidently meant to be (decorator
present).  `meanBrightness` stands for the mean pixel value of the sampled
frame, `captureOk` for whether `cam.capture` succeeds.  The generator body
saves the old resolution and sets (320, 240) before its `yield`; the restore
after the `yield` is not inside a try/finally, so when the block body raises,
the exception is thrown into the generator at the `yield` and the restore
line never runs. -/
def isDaytimeIntended (cfg : Config) (meanBrightness : ℚ) (captureOk : Bool)
    (cam : CamState) : CamState × Except PyErr Bool :=
  let oldres := cam.resolution
  let cam1 := { cam with resolution := (320, 240) }
  let cam2 := { cam1 with iso := cfg.dayiso,
                          shutter_speed := 1000000 / cfg.dayshutter }
  if captureOk then
    let cam3 := { cam2 with resolution := oldres }
    let cam4 := { cam3 with shutter_speed := 1000000 / cfg.dayshutter }
    (cam4, Except.ok (decide (meanBrightness > 10)))
  else
    (cam2, Except.error PyErr.captureError)

/-- Model of `Experimenter.isDaytime` as written: `with self.temporary_resolution((320, 240))`
first checks the context-manager protocol on the generator object, and since
a plain generator has no `enter` method, the statement raises TypeError
before any generator or block code runs; otherwise the scoped block would
execute as in `isDaytimeIntended`.  The returned pair is the camera state
after the call together with the call's outcome. -/
def isDaytime (cfg : Config) (meanBrightness : ℚ) (cam : CamState) :
    CamState × Except PyErr Bool :=
  if generatorSupportsWith then
    isDaytimeIntended cfg meanBrightness true cam
  else
    (cam, Except.error PyErr.typeError)

/-- Model of `Experimenter.setWB`: enable automatic white balance, wait 2 s, read the
gain pair, disable automatic mode and pin the gains. -/
def setWB (cam : CamState) : CamState × List Action :=
  let cam1 := { cam with awb_mode := "auto" }
  let g := cam1.awb_gains
  let cam2 := { cam1 with awb_mode := "off" }
  let cam3 := { cam2 with awb_gains := g }
  (cam3, [.setAwbMode "auto", .sleep 2000, .readAwbGains,
          .setAwbMode "off", .setAwbGains])

/-- Model of `Experimenter._set_camera_settings_based_on_time_of_day`: an
unconditional 0.5 s sleep, then the day branch (shutter, iso, clear colour
effects — the LED line is not touched) or the night branch (LED on, 0.5 s
sleep, shutter, iso). -/
def setCameraSettings (cfg : Config) (daytime : PyDaytime) (cam : CamState)
    (hw : HwState) : CamState × HwState × List Action :=
  if daytime.truthy then
    ({ cam with shutter_speed := 1000000 / cfg.dayshutter,
                iso := cfg.dayiso,
                color_effects := none },
     hw,
     [.sleep 500, .setShutter (1000000 / cfg.dayshutter),
      .setIso cfg.dayiso, .clearColorEffects])
  else
    ({ cam with shutter_speed := 1000000 / cfg.nightshutter,
                iso := cfg.nightiso },
     { hw with led := true },
     [.sleep 500, .ledControl true, .sleep 500,
      .setShutter (1000000 / cfg.nightshutter), .setIso cfg.nightiso])

/-- Model of `Experimenter._capture_and_save_image` together with the called
`_process_and_save_captured_image`: disable automatic exposure, acquire the
raw frame buffer, turn the LED off if `self.daytime` is falsy, then call the
processing step.  The processing step raises AttributeError at entry: it
begins with `raw_res = self._get_raw_resolution()` and `_get_raw_resolution`
is defined nowhere in the repository, so the decode, crop, directory
creation, save and thumbnail statements never execute and the action trace
ends at the LED handling.  Returns the camera and hardware state, the trace,
and the outcome. -/
def captureAndSaveImage (daytime : PyDaytime) (cam : CamState) (hw : HwState) :
    CamState × HwState × List Action × Except PyErr Unit :=
  let cam1 := { cam with exposure_mode := "off" }
  let hw1 := if daytime.truthy then hw else { hw with led := false }
  (cam1, hw1,
   [.setExposureMode "off", .captureBuffer]
     ++ (if daytime.truthy then [] else [.ledControl false]),
   Except.error PyErr.attributeError)

/-- The guard of the white-balance recalibration in `Experimenter.takePicture`:
`prev_daytime != self.daytime and self.daytime and self.cam.awb_mode != "off"`. -/
def wbFires (prev new : PyDaytime) (awb : String) : Bool :=
  (prev != new) && new.truthy && (awb != "off")

/-- Model of `Experimenter.takePicture`: remember the previous
classification, then run `self.daytime = self.isDaytime()`.  Since
`isDaytime` raises TypeError on every call (see `isDaytime` and the claim-C3
theorem), the assignment never completes: `daytime` keeps its previous
value, the TypeError propagates, and the rest of the method — the
time-of-day settings, the white-balance guard and `setWB`, and the capture —
never executes.  The unreachable remainder is still embedded in the `ok`
branch, faithful to the source text.  Returns the `daytime` attribute, the
camera and hardware state, the action trace and the outcome. -/
def takePicture (cfg : Config) (meanBrightness : ℚ) (daytime : PyDaytime)
    (cam : CamState) (hw : HwState) :
    PyDaytime × CamState × HwState × List Action × Except PyErr Unit :=
  let prev := daytime
  let r0 := isDaytime cfg meanBrightness cam
  match r0.2 with
  | Except.error e => (daytime, r0.1, hw, [], Except.error e)
  | Except.ok c =>
    let newDaytime : PyDaytime := .b c
    let r1 := setCameraSettings cfg newDaytime r0.1 hw
    let fires := wbFires prev newDaytime r1.1.awb_mode
    let cam2 := if fires then (setWB r1.1).1 else r1.1
    let tr2 := if fires then Action.setWBCall :: (setWB r1.1).2 else []
    let r3 := captureAndSaveImage newDaytime cam2 r1.2.1
    (newDaytime, r3.1, r3.2.1, r1.2.2 ++ tr2 ++ r3.2.2.1, r3.2.2.2)

/-- Python's `x or y` applied to the delay: a zero (falsy) delay is replaced
by 0.001 (`self.delay = self.delay or 0.001`). -/
def coerceDelay (d : ℚ) : ℚ :=
  if d = 0 then 1 / 1000 else d

/-- Python's floor division `a // b`: undefined (ZeroDivisionError) when the
divisor is zero, otherwise the floor of the true quotient. -/
def pyFloorDiv (a b : ℚ) : Option ℤ :=
  if b = 0 then none else some ⌊a / b⌋

/-- The initiation phase of `Experimenter.runExperiment` (the statements
before the main loop): switch the camera to still mode, set the run flags
and times, reset the captured-path list, coerce a falsy delay, compute the
shot count `self.duration * 24 * 60 // self.delay`, restore automatic
exposure, zero the shutter, switch the LED off, and derive the output
directory from the default name when it is still the home directory.
`now` stands for `time.time()` and `defName` for `self.getDefName()`; the
`getD 0` branch of the shot count models the ZeroDivisionError case, shown
unreachable in the claim-C9 theorem. -/
def initiation (now : ℚ) (defName home : String) (s : ExpState) : ExpState :=
  let d := coerceDelay s.delay
  { s with
    cam := { s.cam with mode := "still", exposure_mode := "auto",
                        shutter_speed := 0 },
    running := true,
    status := "Initiating",
    starttime := now,
    endtime := now + 60 * 60 * 24 * (s.duration : ℚ),
    last_captured := ["", "", "", ""],
    delay := d,
    nshots := (pyFloorDiv ((s.duration : ℚ) * 24 * 60) d).getD 0,
    hw := { s.hw with led := false },
    dir := if s.dir = home then home ++ "/" ++ defName else s.dir }

/-- Model of `Experimenter._end_experiment`: the single finalization path, run in the
`finally` of `runExperiment` — clear the colour effects, reset the status
and the run flags, restore automatic exposure and spot metering. -/
def endExperiment (s : ExpState) : ExpState :=
  { s with
    cam := { s.cam with color_effects := none, exposure_mode := "auto",
                        meter_mode := "spot" },
    status := "Stopped",
    stop_experiment := false,
    running := false }

/-- The main loop of `Experimenter.runExperiment`, idealized to the loop-head
schedule: `t` is the current wall-clock time, the guard is
`time.time() < self.endtime and not self.stop_experiment`, each iteration
computes `nextloop = time.time() + 60 * self.delay` clamped to `self.endtime`,
runs the round body, and the closing 1-second sleep-poll advances the clock
to `nextloop` (round bodies are taken as instantaneous relative to the
between-round delay).  The round body is a parameter; `fuel` bounds the
recursion and is irrelevant once it exceeds the number of scheduled rounds.
Returns the number of rounds executed and the final state. -/
def expLoop (body : ExpState → ExpState) : ℕ → ℚ → ExpState → ℕ × ExpState
  | 0, _, s => (0, s)
  | fuel + 1, t, s =>
    if t < s.endtime ∧ s.stop_experiment = false then
      let nextloop := min (t + 60 * s.delay) s.endtime
      let r := expLoop body fuel nextloop (body s)
      (r.1 + 1, r.2)
    else (0, s)

/-- Model of `Experimenter.runExperiment`: the guard raising
`RuntimeError("An experiment is already running.")` when `self.running` is
set, then initiation, the main loop, and the guaranteed finalization.
Returns the number of rounds executed and the final state, or the error. -/
def runExperiment (body : ExpState → ExpState) (fuel : ℕ) (now : ℚ)
    (defName home : String) (s : ExpState) : Except String (ℕ × ExpState) :=
  if s.running then
    Except.error "An experiment is already running."
  else
    let s1 := initiation now defName home s
    let r := expLoop body fuel now s1
    Except.ok (r.1, endExperiment r.2)

/-- The per-capture file name built in the main loop:
`os.path.join("plate" + str(i + 1), "plate" + str(i + 1) + "-" + now)`,
where `now` is the formatted timestamp `time.strftime("%Y%m%d-%H%M%S", ...)`. -/
def captureFileName (i : ℕ) (timestamp : String) : String :=
  "plate" ++ toString (i + 1) ++ "/" ++
    ("plate" ++ toString (i + 1) ++ "-" ++ timestamp)

/-- The extension of a path in the sense of `os.path.splitext` (which is
what `PIL.Image.save` consults to pick an output format): the suffix of the
final path component from its last dot, where a run of leading dots does not
begin an extension.  Computed over the character list of the path. -/
def splitextExtension (p : String) : String :=
  let base := (p.data.reverse.takeWhile (fun ch => ch ≠ '/')).reverse
  let trimmed := base.dropWhile (fun ch => ch = '.')
  if trimmed.contains '.' then
    String.mk ('.' :: (trimmed.reverse.takeWhile (fun ch => ch ≠ '.')).reverse)
  else ""

/-- Concrete camera state for witnesses: the attribute values the NewCamera
backend reports at startup. -/
def cam0 : CamState where
  resolution := (1920, 1600)
  shutter_speed := 0
  iso := 100
  color_effects := none
  exposure_mode := "auto"
  awb_mode := "auto"
  awb_gains := (1, 1)
  meter_mode := "spot"
  mode := "video"

/-- Concrete hardware state for witnesses. -/
def hw0 : HwState where
  led := false
  motor := false

/-- Concrete configuration for witnesses, using the documented defaults. -/
def cfg0 : Config where
  name := "spiro"
  dayshutter := 100
  nightshutter := 50
  dayiso := 100
  nightiso := 100
  calibration := 0

/-- Claim C2 (evidence for the code bug): every `takePicture` call raises
TypeError at `self.daytime = self.isDaytime()` — before the time-of-day
settings, the white-balance guard and the capture — so the stored
classification keeps its previous value, the action trace is empty, and in
particular `setWB` can never fire from `takePicture`: the guard at line 103
that the claim describes is dead code in the program as written. -/
theorem claim2_setwb_never_fires (cfg : Config) (m : ℚ) (d : PyDaytime)
    (cam : CamState) (hw : HwState) :
    (takePicture cfg m d cam hw).2.2.2.2 = Except.error PyErr.typeError ∧
    (takePicture cfg m d cam hw).1 = d ∧
    (takePicture cfg m d cam hw).2.1 = cam ∧
    (takePicture cfg m d cam hw).2.2.1 = hw ∧
    (takePicture cfg m d cam hw).2.2.2.1 = [] ∧
    Action.setWBCall ∉ (takePicture cfg m d cam hw).2.2.2.1 := by
  have htr : (takePicture cfg m d cam hw).2.2.2.1 = [] := rfl
  refine ⟨rfl, rfl, rfl, rfl, htr, ?_⟩
  rw [htr]
  exact List.not_mem_nil _


/-- Claim C1: while `running` is true, the public start signal `go` leaves
`running`, `starttime` and `nshots` of the in-progress run unchanged, is
idempotent on the state, and a direct `runExperiment` invocation in such a
state is rejected with the RuntimeError without touching the state, so no
second concurrent run is started. -/
theorem claim1_go_while_running (s : ExpState) (body : ExpState → ExpState)
    (fuel : ℕ) (now : ℚ) (defName home : String) (h : s.running = true) :
    (go s).running = true ∧ (go s).starttime = s.starttime ∧
    (go s).nshots = s.nshots ∧ go (go s) = go s ∧
    runExperiment body fuel now defName home s =
      Except.error "An experiment is already running." := by
  refine ⟨h, rfl, rfl, rfl, ?_⟩
  simp [runExperiment, h]

/-- Witness for claim C1 at a concrete running state. -/
theorem claim1_witness :
    ({ initialState "~" cam0 hw0 with running := true } : ExpState).running
        = true ∧
    ((go { initialState "~" cam0 hw0 with running := true }).running = true ∧
     (go { initialState "~" cam0 hw0 with running := true }).starttime =
       ({ initialState "~" cam0 hw0 with running := true } : ExpState).starttime ∧
     (go { initialState "~" cam0 hw0 with running := true }).nshots =
       ({ initialState "~" cam0 hw0 with running := true } : ExpState).nshots ∧
     go (go { initialState "~" cam0 hw0 with running := true }) =
       go { initialState "~" cam0 hw0 with running := true } ∧
     runExperiment id 0 0 "n" "~"
         { initialState "~" cam0 hw0 with running := true } =
       Except.error "An experiment is already running.") :=
  ⟨rfl, claim1_go_while_running _ id 0 0 "n" "~" rfl⟩

/-- Claim C3 (evidence for the code bug): `isDaytime` as written raises
TypeError on every call — `with` applied to the undecorated generator
`temporary_resolution` has no context manager to enter — leaving the camera
untouched and never returning a classification; and even under the intended
context-manager reading, an error inside the block skips the restore after
the `yield`, leaving the resolution at the temporary (320, 240) instead of
the caller's value, while only the normal exit restores it. -/
theorem claim3_isDaytime_never_restores_on_error (cfg : Config) (m : ℚ)
    (cam : CamState) :
    (isDaytime cfg m cam).2 = Except.error PyErr.typeError ∧
    (isDaytime cfg m cam).1 = cam ∧
    (isDaytimeIntended cfg m false cam).2 = Except.error PyErr.captureError ∧
    (isDaytimeIntended cfg m false cam).1.resolution = (320, 240) ∧
    (isDaytimeIntended cfg m true cam).1.resolution = cam.resolution :=
  ⟨rfl, rfl, rfl, rfl, rfl⟩

/-- Claim C4 counterexample: applying the daytime exposure settings does not
ensure the illumination LED is off — starting from a hardware state with the
LED on, the LED is still on afterwards, because the daytime branch never
issues an LED command. -/
theorem claim4_counterexample :
    ¬ (setCameraSettings cfg0 (PyDaytime.b true) cam0
        { led := true, motor := false }).2.1.led = false := by
  decide

/-- Claim C4 (amended): the daytime branch sets the shutter to
`1000000 / dayshutter`, the gain to the day value and clears the colour
effects, leaving the hardware (and hence the LED) untouched; the nighttime
branch turns the LED on, sleeps 0.5 s, then sets the shutter to
`1000000 / nightshutter` and the gain to the night value, in that order. -/
theorem claim4_exposure_settings (cfg : Config) (cam : CamState)
    (hw : HwState) :
    (setCameraSettings cfg (PyDaytime.b true) cam hw).1.shutter_speed =
      1000000 / cfg.dayshutter ∧
    (setCameraSettings cfg (PyDaytime.b true) cam hw).1.iso = cfg.dayiso ∧
    (setCameraSettings cfg (PyDaytime.b true) cam hw).1.color_effects = none ∧
    (setCameraSettings cfg (PyDaytime.b true) cam hw).2.1 = hw ∧
    (setCameraSettings cfg (PyDaytime.b false) cam hw).2.1.led = true ∧
    (setCameraSettings cfg (PyDaytime.b false) cam hw).1.shutter_speed =
      1000000 / cfg.nightshutter ∧
    (setCameraSettings cfg (PyDaytime.b false) cam hw).1.iso = cfg.nightiso ∧
    (setCameraSettings cfg (PyDaytime.b false) cam hw).2.2 =
      [.sleep 500, .ledControl true, .sleep 500,
       .setShutter (1000000 / cfg.nightshutter), .setIso cfg.nightiso] :=
  ⟨rfl, rfl, rfl, rfl, rfl, rfl, rfl, rfl⟩

/-- Claim C5 (evidence for the code bug): in `_capture_and_save_image` with
a falsy daytime flag, `LEDControl(False)` is issued strictly after the raw
buffer acquisition (and not at all for a truthy flag), but nothing can
follow it: the processing step raises AttributeError at entry — the method
`_get_raw_resolution` it calls first is defined nowhere in the repository —
so no decode, crop, directory creation, file save or thumbnail update ever
occurs; and in a real run this step is never even reached, because
`takePicture` raises at the `isDaytime()` call first. -/
theorem claim5_led_off_then_attribute_error (cam : CamState) (hw : HwState) :
    (captureAndSaveImage (PyDaytime.b false) cam hw).2.2.1 =
      [.setExposureMode "off", .captureBuffer, .ledControl false] ∧
    ((captureAndSaveImage (PyDaytime.b false) cam hw).2.2.1.indexOf
        Action.captureBuffer <
      (captureAndSaveImage (PyDaytime.b false) cam hw).2.2.1.indexOf
        (Action.ledControl false)) ∧
    (captureAndSaveImage (PyDaytime.b false) cam hw).2.2.2 =
      Except.error PyErr.attributeError ∧
    Action.decodeImage ∉
      (captureAndSaveImage (PyDaytime.b false) cam hw).2.2.1 ∧
    Action.saveFile ∉
      (captureAndSaveImage (PyDaytime.b false) cam hw).2.2.1 ∧
    Action.thumbnailUpdate ∉
      (captureAndSaveImage (PyDaytime.b false) cam hw).2.2.1 ∧
    Action.ledControl false ∉
      (captureAndSaveImage (PyDaytime.b true) cam hw).2.2.1 ∧
    (captureAndSaveImage (PyDaytime.b true) cam hw).2.2.2 =
      Except.error PyErr.attributeError := by
  have htrN : (captureAndSaveImage (PyDaytime.b false) cam hw).2.2.1 =
      [.setExposureMode "off", .captureBuffer, .ledControl false] := rfl
  have htrD : (captureAndSaveImage (PyDaytime.b true) cam hw).2.2.1 =
      [.setExposureMode "off", .captureBuffer] := rfl
  refine ⟨htrN, ?_, rfl, ?_, ?_, ?_, ?_, rfl⟩
  · rw [htrN]; decide
  · rw [htrN]; decide
  · rw [htrN]; decide
  · rw [htrN]; decide
  · rw [htrD]; decide

/-- Claim C7 (evidence for the code bug): the file name the main loop
builds for every plate has the claimed `plate<N>/plate<N>-<timestamp>` shape
but carries no file extension at all — `os.path.splitext` finds an empty
extension on it, so `PIL.Image.save` has no format to infer. -/
theorem claim7_filename_has_no_extension :
    captureFileName 0 "20231012-120000" = "plate1/plate1-20231012-120000" ∧
    splitextExtension (captureFileName 0 "20231012-120000") = "" ∧
    splitextExtension (captureFileName 1 "20231012-120000") = "" ∧
    splitextExtension (captureFileName 2 "20231012-120000") = "" ∧
    splitextExtension (captureFileName 3 "20231012-120000") = "" :=
  ⟨by decide, by decide, by decide, by decide, by decide⟩

/-- Claim C8 counterexample, on a fully reachable path: from the initial
state, `stop()` then `go()` then `runExperiment` is a complete run (the
pending stop request makes the main loop execute zero rounds, so no capture
code is involved) — yet after its finalization the output directory, the
shot count and the start time all differ from their initial values: the
end-of-run cleanup does not reset the experiment state fields. -/
theorem claim8_counterexample :
    runExperiment id 1 5 "exp" "~" (go (stop (initialState "~" cam0 hw0))) =
      Except.ok (0, endExperiment (initiation 5 "exp" "~"
        (go (stop (initialState "~" cam0 hw0))))) ∧
    (endExperiment (initiation 5 "exp" "~"
        (go (stop (initialState "~" cam0 hw0))))).dir ≠
      (initialState "~" cam0 hw0).dir ∧
    (endExperiment (initiation 5 "exp" "~"
        (go (stop (initialState "~" cam0 hw0))))).nshots ≠
      (initialState "~" cam0 hw0).nshots ∧
    (endExperiment (initiation 5 "exp" "~"
        (go (stop (initialState "~" cam0 hw0))))).starttime ≠
      (initialState "~" cam0 hw0).starttime := by
  refine ⟨?_, ?_, ?_, ?_⟩
  · have hrun : (go (stop (initialState "~" cam0 hw0))).running = false := rfl
    have hstop : (initiation 5 "exp" "~"
        (go (stop (initialState "~" cam0 hw0)))).stop_experiment = true := rfl
    simp [runExperiment, hrun, expLoop, hstop]
  · decide
  · norm_num [endExperiment, initiation, initialState, go, stop, pyFloorDiv,
      coerceDelay]
  · norm_num [endExperiment, initiation, initialState, go, stop]

/-- Claim C8 (amended): at the start of every run `daytime` does equal
`"TBD"`, but only because nothing in the program ever assigns it — the one
assignment raises (see the claim-C3 theorem) and neither the initiation
phase of `runExperiment` nor the end-of-run cleanup touches `daytime`; and
the cleanup resets exactly `status`, `stop_experiment` and `running` (plus
camera exposure, metering and colour-effect settings), while `daytime`,
`nshots`, `starttime`, `endtime`, `dir` and `idlepos` keep their in-run
values rather than being reset to their initial ones. -/
theorem claim8_daytime_persists (s : ExpState) (now : ℚ)
    (defName home : String) :
    (initiation now defName home s).daytime = s.daytime ∧
    (endExperiment s).daytime = s.daytime ∧
    (endExperiment s).status = "Stopped" ∧
    (endExperiment s).running = false ∧
    (endExperiment s).stop_experiment = false ∧
    (endExperiment s).nshots = s.nshots ∧
    (endExperiment s).starttime = s.starttime ∧
    (endExperiment s).endtime = s.endtime ∧
    (endExperiment s).dir = s.dir ∧
    (endExperiment s).idlepos = s.idlepos :=
  ⟨rfl, rfl, rfl, rfl, rfl, rfl, rfl, rfl, rfl, rfl⟩

/-- Claim C9: the delay coercion `self.delay or 0.001` yields a nonzero
divisor for every delay value, so the shot-count floor division
`duration * 24 * 60 // delay` is always defined (no ZeroDivisionError). -/
theorem claim9_no_division_by_zero (duration : ℕ) (delay : ℚ) :
    coerceDelay delay ≠ 0 ∧
    (pyFloorDiv ((duration : ℚ) * 24 * 60) (coerceDelay delay)).isSome
      = true := by
  have h1 : coerceDelay delay ≠ 0 := by
    by_cases hd : delay = 0 <;> norm_num [coerceDelay, hd]
  exact ⟨h1, by simp [pyFloorDiv, h1]⟩

/-- Round-count of the idealized main loop with an effect-free body: starting
at clock `t`, the loop runs for exactly the ceiling of the remaining time
over the between-round delay, whenever the fuel covers that many rounds. -/
lemma expLoop_id_count (s : ExpState) (hd : 0 < s.delay)
    (hs : s.stop_experiment = false) :
    ∀ (fuel : ℕ) (t : ℚ),
      (⌈(s.endtime - t) / (60 * s.delay)⌉).toNat ≤ fuel →
      (expLoop id fuel t s).1 =
        (⌈(s.endtime - t) / (60 * s.delay)⌉).toNat := by
  have hd60 : (0 : ℚ) < 60 * s.delay := by positivity
  intro fuel
  induction fuel with
  | zero =>
    intro t hfuel
    simp only [expLoop]
    omega
  | succ n ih =>
    intro t hfuel
    by_cases ht : t < s.endtime
    · have hguard : t < s.endtime ∧ s.stop_experiment = false := ⟨ht, hs⟩
      have hx : 0 < (s.endtime - t) / (60 * s.delay) :=
        div_pos (by linarith) hd60
      have hcx : 1 ≤ ⌈(s.endtime - t) / (60 * s.delay)⌉ := by
        have h0 : (0 : ℤ) < ⌈(s.endtime - t) / (60 * s.delay)⌉ :=
          Int.lt_ceil.mpr (by exact_mod_cast hx)
        omega
      have hstep : ⌈(s.endtime - min (t + 60 * s.delay) s.endtime) /
          (60 * s.delay)⌉ = ⌈(s.endtime - t) / (60 * s.delay)⌉ - 1 := by
        rcases le_or_lt (t + 60 * s.delay) s.endtime with hle | hlt
        · rw [min_eq_left hle]
          have heq : (s.endtime - (t + 60 * s.delay)) / (60 * s.delay) =
              (s.endtime - t) / (60 * s.delay) - 1 := by
            rw [show s.endtime - (t + 60 * s.delay) =
                s.endtime - t - 60 * s.delay from by ring, sub_div,
              div_self hd60.ne']
          rw [heq, Int.ceil_sub_one]
        · rw [min_eq_right hlt.le, sub_self, zero_div, Int.ceil_zero]
          have h1 : ⌈(s.endtime - t) / (60 * s.delay)⌉ ≤ 1 := by
            apply Int.ceil_le.mpr
            push_cast
            exact (div_le_one hd60).mpr (by linarith)
          omega
      have hrec := ih (min (t + 60 * s.delay) s.endtime) (by rw [hstep]; omega)
      simp only [expLoop, if_pos hguard, id_eq]
      rw [hrec, hstep]
      omega
    · have hx : (s.endtime - t) / (60 * s.delay) ≤ 0 :=
        div_nonpos_iff.mpr (Or.inr ⟨by linarith, hd60.le⟩)
      have hcx : ⌈(s.endtime - t) / (60 * s.delay)⌉ ≤ 0 :=
        Int.ceil_le.mpr (by exact_mod_cast hx)
      have hguard : ¬ (t < s.endtime ∧ s.stop_experiment = false) :=
        fun h => ht h.1
      simp only [expLoop, if_neg hguard]
      omega

/-- The remaining-time ratio the loop schedule sees equals the shot-count
ratio `duration * 24 * 60 / delay`. -/
lemma initiation_remaining_quot (s : ExpState) (now : ℚ) (defName home : String)
    (hd : 0 < s.delay) :
    ((initiation now defName home s).endtime - now) /
      (60 * (initiation now defName home s).delay) =
      ((s.duration : ℚ) * 24 * 60) / s.delay := by
  have hdel : (initiation now defName home s).delay = s.delay := by
    simp [initiation, coerceDelay, hd.ne']
  have hend : (initiation now defName home s).endtime =
      now + 60 * 60 * 24 * (s.duration : ℚ) := rfl
  rw [hdel, hend,
    show now + 60 * 60 * 24 * (s.duration : ℚ) - now =
      60 * ((s.duration : ℚ) * 24 * 60) from by ring]
  rw [mul_comm (60 : ℚ) ((s.duration : ℚ) * 24 * 60),
    mul_comm (60 : ℚ) s.delay,
    mul_div_mul_right _ _ (by norm_num : (60 : ℚ) ≠ 0)]
/-- Concrete experimenter state for the claim-C6 counterexample: the
default state with a delay of 7 minutes and a duration of 1 day. -/
def cex7State : ExpState :=
  { initialState "~" cam0 hw0 with delay := 7, duration := 1 }

/-- Concrete experimenter state for the claim-C6 witness: the default state
with a delay of 60 minutes and a duration of 1 day. -/
def witness60State : ExpState :=
  { initialState "~" cam0 hw0 with delay := 60, duration := 1 }

/-- Claim C6 counterexample: with a valid config of duration 1 day and delay
7 minutes, the reported shot count is `1 * 24 * 60 // 7 = 205`, while the
loop schedule derived from `end time = start + duration` executes 206 rounds
to completion with no stop requested — the two drift by one. -/
theorem claim6_counterexample :
    ((expLoop id 206 0 (initiation 0 "exp" "~" cex7State)).1 : ℤ) ≠
      (initiation 0 "exp" "~" cex7State).nshots := by
  have hd : (0 : ℚ) < cex7State.delay := by norm_num [cex7State, initialState]
  have hratio := initiation_remaining_quot cex7State 0 "exp" "~" hd
  have hceil : ⌈((cex7State.duration : ℚ) * 24 * 60) / cex7State.delay⌉ =
      206 := by
    rw [show ((cex7State.duration : ℚ) * 24 * 60) / cex7State.delay =
        -(-(1440 / 7)) from by norm_num [cex7State, initialState],
      Int.ceil_neg]
    norm_num
  have hcount := expLoop_id_count (initiation 0 "exp" "~" cex7State)
    (by simpa [initiation, coerceDelay] using hd) rfl 206 0
    (by rw [hratio, hceil]; norm_num)
  rw [hratio, hceil] at hcount
  have hshots : (initiation 0 "exp" "~" cex7State).nshots = 205 := by
    norm_num [initiation, cex7State, initialState, pyFloorDiv, coerceDelay]
  rw [hcount, hshots]
  norm_num

/-- Claim C6 (amended): for every valid config (positive delay, no stop
requested) the shot count reported at initiation is the floor of
`duration * 24 * 60 / delay`, the idealized loop schedule executes the
ceiling of the same ratio, and the two agree exactly when the delay divides
the duration in minutes evenly; otherwise the loop executes one more round
than the reported count. -/
theorem claim6_shot_count (s : ExpState) (now : ℚ) (defName home : String)
    (fuel : ℕ) (hd : 0 < s.delay) (hs : s.stop_experiment = false)
    (hfuel : (⌈((s.duration : ℚ) * 24 * 60) / s.delay⌉).toNat ≤ fuel) :
    ((expLoop id fuel now (initiation now defName home s)).1 : ℤ) =
      ⌈((s.duration : ℚ) * 24 * 60) / s.delay⌉ ∧
    (initiation now defName home s).nshots =
      ⌊((s.duration : ℚ) * 24 * 60) / s.delay⌋ ∧
    (∀ k : ℤ, (k : ℚ) * s.delay = (s.duration : ℚ) * 24 * 60 →
      ((expLoop id fuel now (initiation now defName home s)).1 : ℤ) =
        (initiation now defName home s).nshots) := by
  have hd1 : 0 < (initiation now defName home s).delay := by
    simpa [initiation, coerceDelay, hd.ne'] using hd
  have hs1 : (initiation now defName home s).stop_experiment = false := hs
  have hratio := initiation_remaining_quot s now defName home hd
  have hnonneg : 0 ≤ ⌈((s.duration : ℚ) * 24 * 60) / s.delay⌉ :=
    Int.ceil_nonneg (by positivity)
  have hcount := expLoop_id_count (initiation now defName home s) hd1 hs1
    fuel now (by rw [hratio]; exact hfuel)
  rw [hratio] at hcount
  have hc : ((expLoop id fuel now (initiation now defName home s)).1 : ℤ) =
      ⌈((s.duration : ℚ) * 24 * 60) / s.delay⌉ := by
    rw [hcount]
    omega
  have hfl : (initiation now defName home s).nshots =
      ⌊((s.duration : ℚ) * 24 * 60) / s.delay⌋ := by
    simp [initiation, pyFloorDiv, coerceDelay, hd.ne']
  refine ⟨hc, hfl, ?_⟩
  intro k hk
  have hxk : ((s.duration : ℚ) * 24 * 60) / s.delay = (k : ℚ) := by
    rw [eq_comm, eq_div_iff hd.ne', hk]
  rw [hc, hfl, hxk, Int.ceil_intCast, Int.floor_intCast]

/-- Witness for claim C6 at the concrete config of duration 1 day and delay
60 minutes: 24 scheduled rounds and a reported count of 24. -/
theorem claim6_witness :
    (0 : ℚ) < witness60State.delay ∧
    witness60State.stop_experiment = false ∧
    (⌈((witness60State.duration : ℚ) * 24 * 60) /
        witness60State.delay⌉).toNat ≤ 24 ∧
    (((expLoop id 24 0 (initiation 0 "exp" "~" witness60State)).1 : ℤ) =
      ⌈((witness60State.duration : ℚ) * 24 * 60) / witness60State.delay⌉ ∧
     (initiation 0 "exp" "~" witness60State).nshots =
      ⌊((witness60State.duration : ℚ) * 24 * 60) / witness60State.delay⌋ ∧
     (∀ k : ℤ, (k : ℚ) * witness60State.delay =
          (witness60State.duration : ℚ) * 24 * 60 →
        ((expLoop id 24 0 (initiation 0 "exp" "~" witness60State)).1 : ℤ) =
          (initiation 0 "exp" "~" witness60State).nshots)) :=
  ⟨by norm_num [witness60State, initialState], rfl,
   by
     rw [show ((witness60State.duration : ℚ) * 24 * 60) /
         witness60State.delay = ((24 : ℤ) : ℚ) from
       by norm_num [witness60State, initialState], Int.ceil_intCast]
     norm_num,
   claim6_shot_count witness60State 0 "exp" "~" 24
     (by norm_num [witness60State, initialState]) rfl
     (by
       rw [show ((witness60State.duration : ℚ) * 24 * 60) /
           witness60State.delay = ((24 : ℤ) : ℚ) from
         by norm_num [witness60State, initialState], Int.ceil_intCast]
       norm_num)⟩

/-- Claim C10: calling `stop` while no experiment is running sets the status
to `"Stopping"` and raises `stop_experiment`; the subsequent `go` signal
preserves both; and the next `runExperiment` executes zero rounds of its
main loop — for every fuel, every round body and every clock value — before
running the finalization, which resets the status to `"Stopped"` and clears
the stop request. -/
theorem claim10_stop_while_idle (s : ExpState) (body : ExpState → ExpState)
    (fuel : ℕ) (now : ℚ) (defName home : String) (h : s.running = false) :
    (stop s).status = "Stopping" ∧ (stop s).stop_experiment = true ∧
    (go (stop s)).status = "Stopping" ∧
    (go (stop s)).stop_experiment = true ∧
    runExperiment body fuel now defName home (go (stop s)) =
      Except.ok (0, endExperiment (initiation now defName home
        (go (stop s)))) ∧
    (endExperiment (initiation now defName home (go (stop s)))).status =
      "Stopped" ∧
    (endExperiment (initiation now defName home
        (go (stop s)))).stop_experiment = false := by
  have hrun : (go (stop s)).running = false := h
  have hstop : (initiation now defName home (go (stop s))).stop_experiment
      = true := rfl
  refine ⟨rfl, rfl, rfl, rfl, ?_, rfl, rfl⟩
  cases fuel with
  | zero => simp [runExperiment, hrun, expLoop]
  | succ n => simp [runExperiment, hrun, expLoop, hstop]

/-- Witness for claim C10 at the concrete initial state. -/
theorem claim10_witness :
    (initialState "~" cam0 hw0).running = false ∧
    ((stop (initialState "~" cam0 hw0)).status = "Stopping" ∧
     (stop (initialState "~" cam0 hw0)).stop_experiment = true ∧
     (go (stop (initialState "~" cam0 hw0))).status = "Stopping" ∧
     (go (stop (initialState "~" cam0 hw0))).stop_experiment = true ∧
     runExperiment id 5 0 "n" "~" (go (stop (initialState "~" cam0 hw0))) =
       Except.ok (0, endExperiment (initiation 0 "n" "~"
         (go (stop (initialState "~" cam0 hw0))))) ∧
     (endExperiment (initiation 0 "n" "~"
         (go (stop (initialState "~" cam0 hw0))))).status = "Stopped" ∧
     (endExperiment (initiation 0 "n" "~"
         (go (stop (initialState "~" cam0 hw0))))).stop_experiment = false) :=
  ⟨rfl, claim10_stop_while_idle _ id 5 0 "n" "~" rfl⟩

end Spiro
